import Mathlib

/-
  Shallow embedding of the Interstellar repository
  (scripts/setup_houdini_ai.py and scripts/generate_interstellar_ship.py).

  The scripts drive the Houdini scene-graph API.  The host application is
  modelled as a flat store of nodes keyed by full path ("/obj/geo/node"),
  where each node carries a type name, a list of positional inputs
  (references to other nodes by path) and a list of set parameters.
  External effects (HTTP requests, the filesystem, base64, rendering) are
  modelled by an explicit oracle structure `World`; Python exceptions are
  modelled with `Except String`.  Numeric parameter literals are modelled
  in exact rational arithmetic (no claim concerns float rounding).
-/

namespace Interstellar

/-! ## String helpers (Python `in`, `str.rstrip`, `Path.parent`) -/

/-- `listStarts pre l` is true when `pre` is an initial segment of `l`. -/
def listStarts : List Char → List Char → Bool
  | [], _ => true
  | _ :: _, [] => false
  | a :: as, b :: bs => a = b && listStarts as bs

/-- `listHasInfix needle hay`: does `needle` occur contiguously in `hay`?
This is the semantics of the Python substring test `needle in hay`. -/
def listHasInfix (needle : List Char) : List Char → Bool
  | [] => listStarts needle []
  | c :: t => listStarts needle (c :: t) || listHasInfix needle t

/-- Python `needle in hay` on strings. -/
def pyIn (needle hay : String) : Bool :=
  listHasInfix needle.data hay.data

/-- Python `s.lower()`: character-wise lowering (the keywords scanned
for are plain ASCII). -/
def pyLower (s : String) : String :=
  ⟨s.data.map Char.toLower⟩

/-- Python `s.rstrip("/")`. -/
def rstripSlash (s : String) : String :=
  ⟨(s.data.reverse.dropWhile (fun c => c = '/')).reverse⟩

/-- Python `Path(p).parent` (as used on the output image path). -/
def parentOf (p : String) : String :=
  let rest := p.data.reverse.dropWhile (fun c => c ≠ '/')
  match rest with
  | [] => "."
  | _ :: tl => if tl = [] then "/" else ⟨tl.reverse⟩

/-! ## Scene-graph model -/

/-- A parameter value as set by the scripts: string, exact number,
boolean, or a 3-tuple (`parmTuple`). -/
inductive PVal where
  | s (v : String)
  | n (v : ℚ)
  | b (v : Bool)
  | t3 (x y z : ℚ)
deriving DecidableEq, Repr

/-- A node of the host scene graph: type name, positional inputs
(paths of source nodes, `none` = unconnected) and set parameters. -/
structure Node where
  typeName : String
  inputs : List (Option String)
  parms : List (String × PVal)
  displayFlag : Bool := false
  renderFlag : Bool := false
deriving DecidableEq, Repr

/-- A fresh node of a given type, as returned by `createNode`. -/
def Node.fresh (ty : String) : Node :=
  { typeName := ty, inputs := [], parms := [] }

/-- The scene: a flat association list from full node paths to nodes,
in creation order. -/
abbrev Scene := List (String × Node)

/-- Child path under a parent (Houdini `parent.path() + "/" + name`). -/
def childPath (parent name : String) : String :=
  if parent = "/" then "/" ++ name else parent ++ "/" ++ name

/-- `hou.node(path)`: look a node up by path. -/
def Scene.findNode : Scene → String → Option Node
  | [], _ => none
  | (q, m) :: t, p => if q = p then some m else Scene.findNode t p

/-- Replace the node stored at a path (mutation of a node handle). -/
def Scene.setNode : Scene → String → Node → Scene
  | [], _, _ => []
  | (q, m) :: t, p, n => if q = p then (p, n) :: t else (q, m) :: Scene.setNode t p n

/-- Auxiliary search used by `createNode` for a collision-free name:
Houdini uniquifies a requested node name by appending a number. -/
def freshNameAux (sc : Scene) (parent base : String) : Nat → Nat → String
  | 0, i => base ++ toString i
  | fuel + 1, i =>
      let cand := if i = 0 then base else base ++ toString i
      if sc.findNode (childPath parent cand) = none then cand
      else freshNameAux sc parent base fuel (i + 1)

/-- A collision-free child name for `parent` starting from `base`. -/
def Scene.freshName (sc : Scene) (parent base : String) : String :=
  freshNameAux sc parent base (sc.length + 1) 0

/-- `parent.createNode(ty, node_name := base)`: append a fresh node,
returning the updated scene and the actual (possibly uniquified) name. -/
def Scene.createNode (sc : Scene) (parent ty base : String) : Scene × String :=
  let nm := sc.freshName parent base
  (sc ++ [(childPath parent nm, Node.fresh ty)], nm)

/-- Embedding of `_get_or_create` (setup_houdini_ai.py lines 54-58) and of
the textually identical `get_or_create` (generate_interstellar_ship.py
lines 62-66): return the existing child of that name, else create one. -/
def getOrCreate (sc : Scene) (parent ty name : String) : Scene × String :=
  match sc.findNode (childPath parent name) with
  | some _ => (sc, name)
  | none => sc.createNode parent ty name

/-- `node.parm(nm).set(v)`: set (or overwrite in place) a parameter. -/
def updParms : List (String × PVal) → String → PVal → List (String × PVal)
  | [], nm, v => [(nm, v)]
  | (a, b) :: t, nm, v => if a = nm then (nm, v) :: t else (a, b) :: updParms t nm v

def Scene.setParm (sc : Scene) (p parm : String) (v : PVal) : Scene :=
  match sc.findNode p with
  | none => sc
  | some n => sc.setNode p { n with parms := updParms n.parms parm v }

def Scene.getParm (sc : Scene) (p parm : String) : Option PVal :=
  match sc.findNode p with
  | none => none
  | some n => (n.parms.find? (fun e => e.1 = parm)).map (·.2)

/-- Copy a list of parameter values from one node to another one
(the `for p in (...) : shield.parm(p).set(core.parm(p))` loops). -/
def copyParms (sc : Scene) (src dst : String) (names : List String) : Scene :=
  names.foldl
    (fun s nm =>
      match s.getParm src nm with
      | some v => s.setParm dst nm v
      | none => s) sc

/-- `node.input(i)`: `none` when the input is unconnected or beyond the
connected inputs (merge SOPs accept arbitrarily many inputs). -/
def inputAt : List (Option String) → Nat → Option String
  | [], _ => none
  | h :: _, 0 => h
  | _ :: t, n + 1 => inputAt t n

/-- `node.setInput(i, src)`: pad with unconnected slots as needed. -/
def setInputList : List (Option String) → Nat → Option String → List (Option String)
  | [], 0, v => [v]
  | [], n + 1, v => none :: setInputList [] n v
  | _ :: t, 0, v => v :: t
  | h :: t, n + 1, v => h :: setInputList t n v

def Scene.setInputAt (sc : Scene) (p : String) (i : Nat) (src : Option String) : Scene :=
  match sc.findNode p with
  | none => sc
  | some n => sc.setNode p { n with inputs := setInputList n.inputs i src }

def Scene.setDisplayFlag (sc : Scene) (p : String) (v : Bool) : Scene :=
  match sc.findNode p with
  | none => sc
  | some n => sc.setNode p { n with displayFlag := v }

def Scene.setRenderFlag (sc : Scene) (p : String) (v : Bool) : Scene :=
  match sc.findNode p with
  | none => sc
  | some n => sc.setNode p { n with renderFlag := v }

/-- Is `path` a direct child of `parent`? -/
def isChildOf (path parent : String) : Bool :=
  listStarts (parent ++ "/").data path.data &&
    !((path.drop (parent.length + 1)).data.any (fun c => c = '/'))

/-- The loop destroying default `file` SOPs inside a fresh geo container
(`for c in geo.children(): if c.type().name() == "file": c.destroy()`). -/
def clearFileChildren (sc : Scene) (geoP : String) : Scene :=
  sc.filter (fun e => !(isChildOf e.1 geoP && e.2.typeName = "file"))

/-! ## `_connect_merge` (setup_houdini_ai.py lines 301-320) -/

/-- Fuel-driven search for the first unconnected input index: with fuel
at least `l.length` this computes exactly the Python
`while node.input(idx) is not None: idx += 1` loop, which can advance at
most `l.length` times before `input(idx)` is `None`. -/
def findFreeFrom (l : List (Option String)) : Nat → Nat → Nat
  | 0, idx => idx
  | fuel + 1, idx =>
      if (inputAt l idx).isSome then findFreeFrom l fuel (idx + 1) else idx

/-- First index `≥ idx` whose input is unconnected. -/
def findFreeIdx (l : List (Option String)) (idx : Nat) : Nat :=
  findFreeFrom l l.length idx

/-- Net effect of the `_connect_merge` body (lines 306-319) on the merge
node input list: if input 0 is unconnected wire `a` at 0 and `b` at 1;
otherwise wire `b` at the first unconnected index from 1 and re-wire
input 0 to `a` when it differs (the check reads the updated state, as
the Python does after its `setInput(idx, b)`). -/
def connectMergeInputs (l : List (Option String)) (a b : String) : List (Option String) :=
  if inputAt l 0 = none then
    setInputList (setInputList l 0 (some a)) 1 (some b)
  else
    let idx := findFreeIdx l 1
    let l2 := setInputList l idx (some b)
    if inputAt l2 0 ≠ some a then setInputList l2 0 (some a) else l2

/-- Embedding of `_connect_merge`: reuse the named node when it exists and
is a merge SOP, else create a merge node, then wire the base `a` and the
branch `b` per `connectMergeInputs`; returns the merge node (by path). -/
def connectMerge (sc : Scene) (parent a b name : String) : Scene × String :=
  let step : Scene × String :=
    match sc.findNode (childPath parent name) with
    | some n => if n.typeName = "merge" then (sc, name) else sc.createNode parent "merge" name
    | none => sc.createNode parent "merge" name
  let sc1 := step.1
  let p := childPath parent step.2
  match sc1.findNode p with
  | none => (sc1, p)
  | some n => (sc1.setNode p { n with inputs := connectMergeInputs n.inputs a b }, p)

/-! ## `_apply_prompt_tweaks` (setup_houdini_ai.py lines 261-298) -/

/-- The rivet keyword test: `"rivet" in prompt_text.lower()`. -/
def rivetCond (promptText : String) : Bool :=
  pyIn "rivet" (pyLower promptText)

/-- The conduit keyword test: `"glow" in text or "conduit" in text`. -/
def conduitCond (promptText : String) : Bool :=
  pyIn "glow" (pyLower promptText) || pyIn "conduit" (pyLower promptText)

/-- Embedding of `_apply_prompt_tweaks`: keyword-driven procedural
branches. `geoP` is the geo container path and `inputNode` the path of the
current chain output; returns the updated scene and the new output path. -/
def applyPromptTweaks (sc : Scene) (geoP inputNode promptText : String) : Scene × String :=
  let out := inputNode
  let r1 : Scene × String :=
    if pyIn "rivet" (pyLower promptText) then
      let g1 := getOrCreate sc geoP "scatter" "rivets_scatter"
      let scatterP := childPath geoP g1.2
      let s2 := (g1.1.setInputAt scatterP 0 (some out)).setParm scatterP "npts" (PVal.n 400)
      let g2 := getOrCreate s2 geoP "circle" "rivet_circle"
      let circleP := childPath geoP g2.2
      let s3 := ((g2.1.setParm circleP "type" (PVal.n 1)).setParm circleP "radx"
        (PVal.n 0.05)).setParm circleP "rady" (PVal.n 0.05)
      let g3 := getOrCreate s3 geoP "copytopoints" "rivets_copy"
      let ctpP := childPath geoP g3.2
      let s4 := (g3.1.setInputAt ctpP 0 (some circleP)).setInputAt ctpP 1 (some scatterP)
      let m := connectMerge s4 geoP out ctpP "merge_rivets"
      (m.1, m.2)
    else (sc, out)
  let sc1 := r1.1
  let out1 := r1.2
  if pyIn "glow" (pyLower promptText) || pyIn "conduit" (pyLower promptText) then
    let g1 := getOrCreate sc1 geoP "curve" "conduit_curve"
    let curveP := childPath geoP g1.2
    let s2 := (g1.1.setParm curveP "type" (PVal.n 1)).setParm curveP "coords"
      (PVal.s "-1 0 -10  0 0 0  1 0 10")
    let g2 := getOrCreate s2 geoP "polywire" "conduit_wire"
    let wireP := childPath geoP g2.2
    let s3 := (g2.1.setInputAt wireP 0 (some curveP)).setParm wireP "radius" (PVal.n 0.05)
    let m := connectMerge s3 geoP out1 wireP "merge_conduit"
    (m.1, m.2)
  else (sc1, out1)

/-! ## External-effect model for the Stable Diffusion round trip -/

/-- The JSON body of the Automatic1111 request, with the fields the
scripts set (`init_images`/`denoising_strength` only for img2img). -/
structure Payload where
  prompt : String
  steps : ℕ
  cfg_scale : ℚ
  sampler_name : String
  width : ℕ
  height : ℕ
  init_images : Option (List String)
  denoising_strength : Option ℚ
deriving DecidableEq, Repr

/-- The parsed JSON of a Stable Diffusion response: `data.get("images")`. -/
structure SDData where
  images : Option (List String)
deriving DecidableEq, Repr

/-- An HTTP response: `raise_for_status` raises when `statusError` is
set; `resp.json()` yields `jsonResult`. -/
structure SDResp where
  statusError : Option String
  jsonResult : Except String SDData

/-- Oracle for everything outside the scripts: the `requests` module,
the filesystem, base64, the HTTP server, and the render pipeline.
Each fallible call yields `Except.error msg` to model a raised Python
exception. -/
structure World where
  requestsAvailable : Bool
  fileExists : String → Bool
  readFile : String → Except String String
  b64encode : String → String
  b64decode : String → Except String String
  postResp : Except String SDResp
  mkdirResult : String → Except String Unit
  writeResult : String → String → Except String Unit
  renderResult : String → Except String Unit
  hipDir : String
  cwd : String

/-- Observable external effects of a run: HTTP posts (url and body),
created directories and written files. -/
structure Effects where
  posts : List (String × Payload)
  mkdirs : List String
  writes : List (String × String)
deriving DecidableEq, Repr

def emptyEffects : Effects := { posts := [], mkdirs := [], writes := [] }

/-- Effects of having sent one request and nothing else. -/
def postedEffects (url : String) (pl : Payload) : Effects :=
  { posts := [(url, pl)], mkdirs := [], writes := [] }

def Effects.append (e1 e2 : Effects) : Effects :=
  { posts := e1.posts ++ e2.posts, mkdirs := e1.mkdirs ++ e2.mkdirs,
    writes := e1.writes ++ e2.writes }

/-- Is a Python call outcome a raised exception? -/
def exIsErr : Except String α → Bool
  | Except.error _ => true
  | Except.ok _ => false

/-- The fixed sampling parameters (lines 430-437). -/
def sdPayloadBase (prompt : String) : Payload :=
  { prompt := prompt, steps := 20, cfg_scale := 7.0, sampler_name := "Euler a",
    width := 1024, height := 1024, init_images := none, denoising_strength := none }

/-- The `try:` block of `_call_stable_diffusion` (lines 453-470): post,
check status, parse, take the first image, decode, mkdir, write.  Every
failure is caught and yields `ok false`; `posted` records the request. -/
def sdTryPhase (w : World) (output_image : String) (posted : Effects) :
    Except String Bool × Effects :=
  match w.postResp with
  | Except.error _ => (Except.ok false, posted)
  | Except.ok resp =>
    match resp.statusError with
    | some _ => (Except.ok false, posted)
    | none =>
      match resp.jsonResult with
      | Except.error _ => (Except.ok false, posted)
      | Except.ok data =>
        match data.images.getD [] with
        | [] => (Except.ok false, posted)
        | img0 :: _ =>
          match w.b64decode img0 with
          | Except.error _ => (Except.ok false, posted)
          | Except.ok png =>
            match w.mkdirResult (parentOf output_image) with
            | Except.error _ => (Except.ok false, posted)
            | Except.ok _ =>
              match w.writeResult output_image png with
              | Except.error _ =>
                  (Except.ok false, { posted with mkdirs := [parentOf output_image] })
              | Except.ok _ =>
                  (Except.ok true,
                    { posted with
                        mkdirs := [parentOf output_image],
                        writes := [(output_image, png)] })

/-- Embedding of `_call_stable_diffusion` (lines 415-470).  Note the init
image is read OUTSIDE the try/except (lines 441-451): a read failure
there is modelled as `Except.error`, which propagates to the caller. -/
def callStableDiffusion (w : World) (init_image : Option String) (prompt : String)
    (output_image : String) (api_url : Option String) : Except String Bool × Effects :=
  match api_url with
  | none => (Except.ok false, emptyEffects)
  | some u =>
    if u = "" then (Except.ok false, emptyEffects)
    else if w.requestsAvailable = false then (Except.ok false, emptyEffects)
    else
      let prep : Except String (String × Payload) :=
        match init_image with
        | some p =>
          if w.fileExists p then
            match w.readFile p with
            | Except.error e => Except.error e
            | Except.ok bytes =>
              Except.ok ("/sdapi/v1/img2img",
                { sdPayloadBase prompt with
                    init_images := some [w.b64encode bytes],
                    denoising_strength := some 0.6 })
          else Except.ok ("/sdapi/v1/txt2img", sdPayloadBase prompt)
        | none => Except.ok ("/sdapi/v1/txt2img", sdPayloadBase prompt)
      match prep with
      | Except.error e => (Except.error e, emptyEffects)
      | Except.ok ep =>
        let url := rstripSlash u ++ ep.1
        sdTryPhase w output_image { posts := [(url, ep.2)], mkdirs := [], writes := [] }

/-- The `try:` block of `call_sd_txt2img` (generate_interstellar_ship.py
lines 42-59).  Unlike `_call_stable_diffusion` it creates the output
directory before decoding the image. -/
def sdTryPhaseTxt (w : World) (out_path : String) (posted : Effects) :
    Except String Bool × Effects :=
  match w.postResp with
  | Except.error _ => (Except.ok false, posted)
  | Except.ok resp =>
    match resp.statusError with
    | some _ => (Except.ok false, posted)
    | none =>
      match resp.jsonResult with
      | Except.error _ => (Except.ok false, posted)
      | Except.ok data =>
        match data.images.getD [] with
        | [] => (Except.ok false, posted)
        | img0 :: _ =>
          match w.mkdirResult (parentOf out_path) with
          | Except.error _ => (Except.ok false, posted)
          | Except.ok _ =>
            match w.b64decode img0 with
            | Except.error _ =>
                (Except.ok false, { posted with mkdirs := [parentOf out_path] })
            | Except.ok png =>
              match w.writeResult out_path png with
              | Except.error _ =>
                  (Except.ok false, { posted with mkdirs := [parentOf out_path] })
              | Except.ok _ =>
                  (Except.ok true,
                    { posted with
                        mkdirs := [parentOf out_path],
                        writes := [(out_path, png)] })

/-- Embedding of `call_sd_txt2img` (generate_interstellar_ship.py lines
25-59): always txt2img, same fixed payload, same catch-all try. -/
def callSdTxt2img (w : World) (prompt out_path api_url : String) :
    Except String Bool × Effects :=
  if w.requestsAvailable = false then (Except.ok false, emptyEffects)
  else
    let url := rstripSlash api_url ++ "/sdapi/v1/txt2img"
    sdTryPhaseTxt w out_path
      { posts := [(url, sdPayloadBase prompt)], mkdirs := [], writes := [] }

/-! ## Host-application capability model and the full pipeline -/

/-- Capabilities of the Houdini installation the scripts query:
whether `hou` imports at all, interpreter/application versions, which
node types the catalogs offer, and which parameters node types carry. -/
structure Host where
  houAvailable : Bool
  pyMajor : ℕ
  pyMinor : ℕ
  appVersion : Option ℕ
  sopTypeAvailable : String → Bool
  ropTypeAvailable : String → Bool
  topTypeAvailable : String → Bool
  matTypeAvailable : String → Bool
  shaderHasParm : String → Bool
  sdTopHasApiUrl : Bool
  sdTopHasPrompt : Bool
  matSopHasPath1 : Bool

/-- Embedding of `_check_versions` (lines 37-51): it only prints
warnings; the returned list holds them.  The version access is wrapped in
a try that swallows failures (`appVersion = none`). -/
def checkVersions (host : Host) : List String :=
  (if ¬(host.pyMajor = 3 ∧ host.pyMinor = 9) then
      ["Warning: Python version detected; recommended 3.9"] else []) ++
  (match host.appVersion with
   | some mj => if mj < 20 then ["Warning: Houdini version detected; recommended 20+"] else []
   | none => [])

/-- Node handles returned by `_create_spaceship_blockout`. -/
structure BlockoutNodes where
  objP : String
  geoP : String
  matSopP : String
  uvOutP : String
deriving DecidableEq, Repr

/-- The body of `_create_spaceship_blockout` (lines 68-193), run after
the `/obj` existence check: hull tubes, engine cones and spheres, bussard
torus and cone, the ship merge, optional reduction, UVs, prompt tweaks
and the material SOP. -/
def blockoutBody (host : Host) (sc : Scene) (promptTweaks : Option String) :
    Scene × BlockoutNodes :=
  let g0 := getOrCreate sc "/obj" "geo" "interstellar_ship"
  let geoP := childPath "/obj" g0.2
  let sc := clearFileChildren g0.1 geoP
  let hull_length : ℚ := 5000.0
  let hull_radius : ℚ := 80.0
  let g1 := getOrCreate sc geoP "tube" "hull_core"
  let coreP := childPath geoP g1.2
  let sc := ((((((g1.1.setParm coreP "type" (PVal.n 1)).setParm coreP "orient"
    (PVal.n 2)).setParm coreP "height" (PVal.n hull_length)).setParm coreP "rad1"
    (PVal.n hull_radius)).setParm coreP "rad2" (PVal.n hull_radius)).setParm coreP "cap"
    (PVal.b true))
  let g2 := getOrCreate sc geoP "tube" "hull_shield_1"
  let shield1P := childPath geoP g2.2
  let sc := copyParms g2.1 coreP shield1P ["type", "orient", "height", "rad1", "rad2", "cap"]
  let sc := (sc.setParm shield1P "rad1" (PVal.n (hull_radius * 1.05))).setParm shield1P
    "rad2" (PVal.n (hull_radius * 1.05))
  let g3 := getOrCreate sc geoP "tube" "hull_shield_2"
  let shield2P := childPath geoP g3.2
  let sc := copyParms g3.1 coreP shield2P ["type", "orient", "height", "rad1", "rad2", "cap"]
  let sc := (sc.setParm shield2P "rad1" (PVal.n (hull_radius * 1.1))).setParm shield2P
    "rad2" (PVal.n (hull_radius * 1.1))
  let tail_z : ℚ := -hull_length * 0.5
  let engine_offset : ℚ := 140.0
  let nozzle_length : ℚ := 150.0
  let nozzle_radius : ℚ := 40.0
  let g4 := getOrCreate sc geoP "cone" "engine_nozzle_L"
  let nozLP := childPath geoP g4.2
  let sc := ((((g4.1.setParm nozLP "type" (PVal.n 1)).setParm nozLP "height"
    (PVal.n nozzle_length)).setParm nozLP "rad" (PVal.n nozzle_radius)).setParm nozLP "t"
    (PVal.t3 engine_offset 0 (tail_z + nozzle_length * 0.5))).setParm nozLP "r"
    (PVal.t3 90.0 0 0)
  let g5 := getOrCreate sc geoP "cone" "engine_nozzle_R"
  let nozRP := childPath geoP g5.2
  let sc := ((((g5.1.setParm nozRP "type" (PVal.n 1)).setParm nozRP "height"
    (PVal.n nozzle_length)).setParm nozRP "rad" (PVal.n nozzle_radius)).setParm nozRP "t"
    (PVal.t3 (-engine_offset) 0 (tail_z + nozzle_length * 0.5))).setParm nozRP "r"
    (PVal.t3 90.0 0 0)
  let g6 := getOrCreate sc geoP "sphere" "engine_plasma_L"
  let plasmaLP := childPath geoP g6.2
  let sc := ((((g6.1.setParm plasmaLP "type" (PVal.n 2)).setParm plasmaLP "radx"
    (PVal.n (nozzle_radius * 0.6))).setParm plasmaLP "rady"
    (PVal.n (nozzle_radius * 0.6))).setParm plasmaLP "radz"
    (PVal.n (nozzle_radius * 0.6))).setParm plasmaLP "t"
    (PVal.t3 engine_offset 0 (tail_z + nozzle_length))
  let g7 := getOrCreate sc geoP "sphere" "engine_plasma_R"
  let plasmaRP := childPath geoP g7.2
  let sc := ((((g7.1.setParm plasmaRP "type" (PVal.n 2)).setParm plasmaRP "radx"
    (PVal.n (nozzle_radius * 0.6))).setParm plasmaRP "rady"
    (PVal.n (nozzle_radius * 0.6))).setParm plasmaRP "radz"
    (PVal.n (nozzle_radius * 0.6))).setParm plasmaRP "t"
    (PVal.t3 (-engine_offset) 0 (tail_z + nozzle_length))
  let nose_z : ℚ := hull_length * 0.5
  let g8 := getOrCreate sc geoP "torus" "bussard_ring"
  let ringP := childPath geoP g8.2
  let sc := (((g8.1.setParm ringP "type" (PVal.n 1)).setParm ringP "rad1"
    (PVal.n (hull_radius * 1.6))).setParm ringP "rad2"
    (PVal.n (hull_radius * 0.2))).setParm ringP "t" (PVal.t3 0 0 (nose_z - 50.0))
  let g9 := getOrCreate sc geoP "cone" "bussard_cone"
  let sconeP := childPath geoP g9.2
  let sc := ((((g9.1.setParm sconeP "type" (PVal.n 1)).setParm sconeP "height"
    (PVal.n 400.0)).setParm sconeP "rad" (PVal.n (hull_radius * 1.2))).setParm sconeP "t"
    (PVal.t3 0 0 (nose_z - 200.0))).setParm sconeP "r" (PVal.t3 (-90.0) 0 0)
  let g10 := getOrCreate sc geoP "merge" "ship_merge"
  let mergeP := childPath geoP g10.2
  let sc := ((((((((g10.1.setInputAt mergeP 0 (some coreP)).setInputAt mergeP 1
    (some shield1P)).setInputAt mergeP 2 (some shield2P)).setInputAt mergeP 3
    (some nozLP)).setInputAt mergeP 4 (some nozRP)).setInputAt mergeP 5
    (some plasmaLP)).setInputAt mergeP 6 (some plasmaRP)).setInputAt mergeP 7
    (some ringP)).setInputAt mergeP 8 (some sconeP)
  let g11 :=
    if host.sopTypeAvailable "polyreduce::2.0" then
      getOrCreate sc geoP "polyreduce::2.0" "opt_reduce"
    else getOrCreate sc geoP "polyreduce" "opt_reduce"
  let reduceP := childPath geoP g11.2
  let sc := (g11.1.setInputAt reduceP 0 (some mergeP)).setParm reduceP "percentage"
    (PVal.n 100)
  let g12 :=
    if host.sopTypeAvailable "uvflatten::2.0" then
      getOrCreate sc geoP "uvflatten::2.0" "uvs"
    else getOrCreate sc geoP "uvunwrap" "uvs"
  let uvP := childPath geoP g12.2
  let sc := g12.1.setInputAt uvP 0 (some reduceP)
  let tweaked : Scene × String :=
    match promptTweaks with
    | some t => if t = "" then (sc, uvP) else applyPromptTweaks sc geoP uvP t
    | none => (sc, uvP)
  let sc := tweaked.1
  let outP := tweaked.2
  let g13 := getOrCreate sc geoP "material" "assign_material"
  let matSopP := childPath geoP g13.2
  let sc := g13.1.setInputAt matSopP 0 (some outP)
  let sc := ((sc.setDisplayFlag geoP true).setDisplayFlag matSopP true).setRenderFlag
    matSopP true
  (sc, { objP := "/obj", geoP := geoP, matSopP := matSopP, uvOutP := outP })

/-- Embedding of `_create_spaceship_blockout` (lines 61-193): raises
`RuntimeError("/obj not found")` when the root `/obj` node is missing,
otherwise builds the blockout. -/
def createSpaceshipBlockout (host : Host) (sc : Scene) (promptTweaks : Option String) :
    Except String (Scene × BlockoutNodes) :=
  match sc.findNode "/obj" with
  | none => Except.error "/obj not found"
  | some _ => Except.ok (blockoutBody host sc promptTweaks)

/-- Node handles returned by `_add_cockpit`. -/
structure CockpitNodes where
  geoP : String
  cameraP : String
  outP : String
deriving DecidableEq, Repr

/-- Embedding of `_add_cockpit` (lines 196-258): dashboard grid,
scattered hologram orbs, cockpit UVs, interior camera, emission-hint
attribute. -/
def addCockpit (host : Host) (sc : Scene) (parentObj : String) :
    Scene × CockpitNodes :=
  let g0 := getOrCreate sc parentObj "geo" "interstellar_cockpit"
  let geoP := childPath parentObj g0.2
  let sc := clearFileChildren g0.1 geoP
  let g1 := getOrCreate sc geoP "grid" "dashboard_grid"
  let gridP := childPath geoP g1.2
  let sc := (((g1.1.setParm gridP "sizex" (PVal.n 4.0)).setParm gridP "sizey"
    (PVal.n 2.0)).setParm gridP "t" (PVal.t3 0 1.2 0)).setParm gridP "r"
    (PVal.t3 (-10.0) 0 0)
  let g2 := getOrCreate sc geoP "scatter" "holo_scatter"
  let scatterP := childPath geoP g2.2
  let sc := ((g2.1.setInputAt scatterP 0 (some gridP)).setParm scatterP "npts"
    (PVal.n 20)).setParm scatterP "relax" (PVal.n 1)
  let g3 := getOrCreate sc geoP "sphere" "holo_orb"
  let orbP := childPath geoP g3.2
  let sc := (((g3.1.setParm orbP "type" (PVal.n 2)).setParm orbP "radx"
    (PVal.n 0.07)).setParm orbP "rady" (PVal.n 0.07)).setParm orbP "radz" (PVal.n 0.07)
  let g4 := getOrCreate sc geoP "copytopoints" "holo_copy"
  let ctpP := childPath geoP g4.2
  let sc := (g4.1.setInputAt ctpP 0 (some orbP)).setInputAt ctpP 1 (some scatterP)
  let g5 := getOrCreate sc geoP "merge" "cockpit_merge"
  let cmergeP := childPath geoP g5.2
  let sc := (g5.1.setInputAt cmergeP 0 (some gridP)).setInputAt cmergeP 1 (some ctpP)
  let g6 :=
    if host.sopTypeAvailable "uvflatten::2.0" then
      getOrCreate sc geoP "uvflatten::2.0" "cockpit_uvs"
    else getOrCreate sc geoP "uvunwrap" "cockpit_uvs"
  let cuvP := childPath geoP g6.2
  let sc := g6.1.setInputAt cuvP 0 (some cmergeP)
  let g7 := getOrCreate sc parentObj "cam" "cockpit_cam"
  let camP := childPath parentObj g7.2
  let sc := (g7.1.setParm camP "t" (PVal.t3 0 1.5 2.5)).setParm camP "r"
    (PVal.t3 (-8.0) 0 0)
  let g8 := getOrCreate sc geoP "attribcreate" "holo_emission_hint"
  let attribP := childPath geoP g8.2
  let sc := ((((g8.1.setInputAt attribP 0 (some cuvP)).setParm attribP "name"
    (PVal.s "emit")).setParm attribP "class" (PVal.n 1)).setParm attribP "type"
    (PVal.n 0)).setParm attribP "value1" (PVal.n 5.0)
  let sc := (sc.setDisplayFlag attribP true).setRenderFlag attribP true
  (sc, { geoP := geoP, cameraP := camP, outP := attribP })

/-- Embedding of `_create_camera_and_lights` (lines 323-337). -/
def createCameraAndLights (sc : Scene) : Scene × String :=
  let g0 := getOrCreate sc "/obj" "cam" "interstellar_cam"
  let camP := childPath "/obj" g0.2
  let sc := (g0.1.setParm camP "t" (PVal.t3 0 5 50)).setParm camP "r"
    (PVal.t3 (-10) 0 0)
  let g1 := getOrCreate sc "/obj" "hlight" "key_light"
  let keyP := childPath "/obj" g1.2
  let sc := g1.1.setParm keyP "t" (PVal.t3 20 30 40)
  let g2 := getOrCreate sc "/obj" "hlight" "fill_light"
  let fillP := childPath "/obj" g2.2
  let sc := g2.1.setParm fillP "t" (PVal.t3 (-25) (-10) 20)
  (sc, camP)

/-- Embedding of `_try_stablehoudini_pdg` (lines 340-384): the whole body
sits inside a catch-all try, so the function never raises; it is a
best-effort PDG graph builder. -/
def tryStableHoudiniPdg (host : Host) (sc : Scene) : Scene :=
  if (sc.findNode "/obj").isNone then sc
  else
    let t0 : Scene × String :=
      match sc.findNode (childPath "/obj" "stablehoudini_pdg") with
      | some _ => (sc, "stablehoudini_pdg")
      | none => sc.createNode "/obj" "topnet" "stablehoudini_pdg"
    let topP := childPath "/obj" t0.2
    match ["sd_img2img", "top_stable_diffusion"].find? host.topTypeAvailable with
    | none => t0.1
    | some ty =>
      let c := t0.1.createNode topP ty "sd_img2img_cockpit"
      let sdP := childPath topP c.2
      let sc := if host.sdTopHasApiUrl then
          c.1.setParm sdP "api_url" (PVal.s "http://127.0.0.1:7860") else c.1
      let sc := if host.sdTopHasPrompt then
          sc.setParm sdP "prompt"
            (PVal.s "retro-futuristic cockpit with neon holograms, high-fidelity panels")
        else sc
      if (sc.findNode (childPath topP "localscheduler")).isNone then
        let l := sc.createNode topP "localscheduler" "localscheduler"
        l.1.setInputAt sdP 0 (some (childPath topP l.2))
      else sc

/-- Embedding of `_render_viewport_snapshot` (lines 387-412): requires
`/out` and an OpenGL ROP type; a render failure is caught and reported as
`false`; success is `output_path.exists()` after rendering. -/
def renderViewportSnapshot (host : Host) (w : World) (sc : Scene)
    (outputPath camPath : String) : Scene × Bool :=
  if (sc.findNode "/out").isNone then (sc, false)
  else
    let ropType : Option String :=
      if host.ropTypeAvailable "opengl" then some "opengl"
      else if host.ropTypeAvailable "ogl" then some "ogl" else none
    match ropType with
    | none => (sc, false)
    | some ty =>
      let g := getOrCreate sc "/out" ty "interstellar_snapshot"
      let ropP := childPath "/out" g.2
      let sc := ((((g.1.setParm ropP "camera" (PVal.s camPath)).setParm ropP "vm_picture"
        (PVal.s outputPath)).setParm ropP "trange" (PVal.n 0)).setParm ropP "res1"
        (PVal.n 1024)).setParm ropP "res2" (PVal.n 1024)
      match w.renderResult outputPath with
      | Except.error _ => (sc, false)
      | Except.ok _ => (sc, w.fileExists outputPath)

/-- Embedding of `_create_or_update_material` (lines 473-494): ensure
`/mat` and a principled shader named `ship_mat`; set the base-color
texture parameters only when a texture path was produced and exists. -/
def createOrUpdateMaterial (host : Host) (w : World) (sc : Scene)
    (texturePath : Option String) : Scene × String :=
  let sc := if (sc.findNode "/mat").isNone then (sc.createNode "/" "matnet" "mat").1 else sc
  let shaderType :=
    if host.matTypeAvailable "principledshader::2.0" then "principledshader::2.0"
    else "principledshader"
  let g := getOrCreate sc "/mat" shaderType "ship_mat"
  let matP := childPath "/mat" g.2
  let sc :=
    match texturePath with
    | some tp =>
      if w.fileExists tp then
        let sc := ["basecolor_useTexture", "basecolortex_useTexture"].foldl
          (fun s nm => if host.shaderHasParm nm then s.setParm matP nm (PVal.n 1) else s) g.1
        ["basecolor_texture", "basecolortex_texture"].foldl
          (fun s nm => if host.shaderHasParm nm then s.setParm matP nm (PVal.s tp) else s) sc
      else g.1
    | none => g.1
  (sc, matP)

/-- Embedding of `_assign_material_to_geo` (lines 497-504). -/
def assignMaterialToGeo (host : Host) (sc : Scene) (matPath : String)
    (matSop : Option String) : Scene :=
  match matSop with
  | none => sc
  | some sp =>
    if host.matSopHasPath1 then
      ((sc.setParm sp "num_materials" (PVal.n 1)).setParm sp "group1"
        (PVal.s "")).setParm sp "shop_materialpath1" (PVal.s matPath)
    else sc

/-- The observable outcome of a full `setup_interstellar_ai` run. -/
structure SetupOut where
  scene : Scene
  sdOk : Bool
  cockpitBuilt : Bool
  effects : Effects
deriving DecidableEq, Repr

/-- Embedding of `setup_interstellar_ai` (lines 507-592).  `Except.error`
models an exception escaping the function; everything the function
catches internally shows up as a reduced `SetupOut` instead. -/
def setupInterstellarAI (host : Host) (w : World) (sc : Scene)
    (prompt : String) (promptTweaks : Option String) (sdApiUrl : Option String)
    (cockpitStyle : Option String) (buildPdg : Bool) : Except String SetupOut :=
  if host.houAvailable = false then
    Except.error "This script must be run inside Houdini (hou module not found)."
  else
    let _warnings := checkVersions host
    match createSpaceshipBlockout host sc promptTweaks with
    | Except.error e => Except.error e
    | Except.ok blk =>
      let nodes := blk.2
      let ck : Scene × Option CockpitNodes :=
        match cockpitStyle with
        | none => (blk.1, none)
        | some st =>
          if st = "" then (blk.1, none)
          else
            let r := addCockpit host blk.1 nodes.objP
            (r.1, some r.2)
      let cam := createCameraAndLights ck.1
      let projectRoot := if w.hipDir = "" then w.cwd else w.hipDir
      let aiDir := projectRoot ++ "/ai_tools/generated"
      let snapshotPath := aiDir ++ "/ship_view.png"
      let texturePath := aiDir ++ "/ship_texture.png"
      let cockpitSnapshotPath := aiDir ++ "/cockpit_view.png"
      let cockpitTexturePath := aiDir ++ "/cockpit_texture.png"
      let rsnap := renderViewportSnapshot host w cam.1 snapshotPath cam.2
      let sd1 := callStableDiffusion w (if rsnap.2 then some snapshotPath else none)
        prompt texturePath sdApiUrl
      match sd1.1 with
      | Except.error e => Except.error e
      | Except.ok sdOk =>
        let ckStep : Except String (Scene × Effects × Bool) :=
          match ck.2 with
          | none => Except.ok (rsnap.1, emptyEffects, false)
          | some cn =>
            let rs2 := renderViewportSnapshot host w rsnap.1 cockpitSnapshotPath cn.cameraP
            let ckPrompt :=
              match cockpitStyle with
              | some st => if st = "" then "retro-futuristic cockpit with neon holograms" else st
              | none => "retro-futuristic cockpit with neon holograms"
            let sd2 := callStableDiffusion w
              (if rs2.2 then some cockpitSnapshotPath else none) ckPrompt
              cockpitTexturePath sdApiUrl
            match sd2.1 with
            | Except.error e => Except.error e
            | Except.ok _ =>
              let sc2 := if buildPdg then tryStableHoudiniPdg host rs2.1 else rs2.1
              Except.ok (sc2, sd2.2, true)
        match ckStep with
        | Except.error e => Except.error e
        | Except.ok fin =>
          let m := createOrUpdateMaterial host w fin.1
            (if sdOk then some texturePath else none)
          let scFinal := assignMaterialToGeo host m.1 m.2 (some nodes.matSopP)
          Except.ok { scene := scFinal, sdOk := sdOk,
                      cockpitBuilt := (ck.2.isSome),
                      effects := sd1.2.append fin.2.1 }

/-! ## Concrete contexts used by the claims -/

def shipGeoP : String := "/obj/interstellar_ship"
def uvsP : String := "/obj/interstellar_ship/uvs"
def mergeRivetsP : String := "/obj/interstellar_ship/merge_rivets"
def mergeConduitP : String := "/obj/interstellar_ship/merge_conduit"

/-- The pipeline context at the point `_apply_prompt_tweaks` is called:
a geo container whose current chain output is the `uvs` node. -/
def tweakScene0 : Scene :=
  [("/obj", Node.fresh "objnet"),
   (shipGeoP, Node.fresh "geo"),
   (uvsP, Node.fresh "uvflatten::2.0")]

/-- Specified rivet branch (from the spec text): a scatter over the base,
a small circle, a copy-to-points instancing the circles, and a merge of
the base with the copies. -/
def specRivetBranch : Scene :=
  [("/obj/interstellar_ship/rivets_scatter",
    { typeName := "scatter", inputs := [some uvsP], parms := [("npts", PVal.n 400)] }),
   ("/obj/interstellar_ship/rivet_circle",
    { typeName := "circle", inputs := [],
      parms := [("type", PVal.n 1), ("radx", PVal.n 0.05), ("rady", PVal.n 0.05)] }),
   ("/obj/interstellar_ship/rivets_copy",
    { typeName := "copytopoints",
      inputs := [some "/obj/interstellar_ship/rivet_circle",
                 some "/obj/interstellar_ship/rivets_scatter"],
      parms := [] }),
   (mergeRivetsP,
    { typeName := "merge",
      inputs := [some uvsP, some "/obj/interstellar_ship/rivets_copy"],
      parms := [] })]

/-- Specified conduit branch (from the spec text): a curve, a polywire
tube along it, and a merge of the running base `base` with the tube. -/
def specConduitBranch (base : String) : Scene :=
  [("/obj/interstellar_ship/conduit_curve",
    { typeName := "curve", inputs := [],
      parms := [("type", PVal.n 1), ("coords", PVal.s "-1 0 -10  0 0 0  1 0 10")] }),
   ("/obj/interstellar_ship/conduit_wire",
    { typeName := "polywire", inputs := [some "/obj/interstellar_ship/conduit_curve"],
      parms := [("radius", PVal.n 0.05)] }),
   (mergeConduitP,
    { typeName := "merge",
      inputs := [some base, some "/obj/interstellar_ship/conduit_wire"],
      parms := [] })]

/-- Specified overall result of the tweak selector as a function of the
two independent keyword matches `r` and `g`: each matched branch is
appended and merged with the running base, and the output is the last
merge (both branches when both match). -/
def specTweakResult (r g : Bool) : Scene × String :=
  (tweakScene0 ++ (if r then specRivetBranch else []) ++
     (if g then specConduitBranch (if r then mergeRivetsP else uvsP) else []),
   if g then mergeConduitP else if r then mergeRivetsP else uvsP)

/-- An already-wired merge node context for the idempotence claim: the
base is wired at input 0 and the branch at input 1. -/
def c3Scene : Scene :=
  [("/g", Node.fresh "geo"),
   ("/g/base", Node.fresh "tube"),
   ("/g/br", Node.fresh "copytopoints"),
   ("/g/m", { typeName := "merge",
              inputs := [some "/g/base", some "/g/br"], parms := [] })]

/-- A merge node with no inputs yet, for exercising the first-wire case. -/
def c2Scene : Scene :=
  [("/g", Node.fresh "geo"),
   ("/g/base", Node.fresh "tube"),
   ("/g/br", Node.fresh "copytopoints"),
   ("/g/m", Node.fresh "merge")]

/-- A parent that already has a child named `geo1`. -/
def c10Scene : Scene := [("/obj/geo1", Node.fresh "geo")]

/-- The condition under which `_call_stable_diffusion` raises instead of
returning: the API is configured, `requests` imports, and the init image
passes its existence check but reading it raises (the read sits outside
the try/except).  Everything else is caught. -/
def sdRaisesB (w : World) (init_image : Option String) (api_url : Option String) : Bool :=
  match api_url with
  | none => false
  | some u =>
    if u = "" then false
    else if w.requestsAvailable = false then false
    else
      match init_image with
      | some p => w.fileExists p && exIsErr (w.readFile p)
      | none => false

/-- A world where every file passes the existence check but reading
raises (e.g. a permission error), exhibiting the uncaught init read. -/
def permWorld : World :=
  { requestsAvailable := true
    fileExists := fun _ => true
    readFile := fun _ => Except.error "permission denied"
    b64encode := fun s => s
    b64decode := fun s => Except.ok s
    postResp := Except.error "unused"
    mkdirResult := fun _ => Except.ok ()
    writeResult := fun _ _ => Except.ok ()
    renderResult := fun _ => Except.ok ()
    hipDir := "/hip"
    cwd := "/cwd" }

/-- A world whose server answers with two images and whose filesystem
calls all succeed; no file passes the existence check. -/
def okWorld : World :=
  { requestsAvailable := true
    fileExists := fun _ => false
    readFile := fun _ => Except.ok "BYTES"
    b64encode := fun s => s
    b64decode := fun _ => Except.ok "PNG"
    postResp := Except.ok
      { statusError := none, jsonResult := Except.ok { images := some ["IMG1", "IMG2"] } }
    mkdirResult := fun _ => Except.ok ()
    writeResult := fun _ _ => Except.ok ()
    renderResult := fun _ => Except.ok ()
    hipDir := "/hip"
    cwd := "/cwd" }

/-- As `okWorld` but every file exists (drives the img2img endpoint). -/
def okWorld2 : World := { okWorld with fileExists := fun _ => true }

/-- As `okWorld` but the server answers with an empty image list. -/
def emptyWorld : World :=
  { okWorld with
      postResp := Except.ok
        { statusError := none, jsonResult := Except.ok { images := some [] } } }

/-- The parsed response `okWorld` serves. -/
def okData : SDData := { images := some ["IMG1", "IMG2"] }

/-- The HTTP response `okWorld` serves. -/
def okResp : SDResp := { statusError := none, jsonResult := Except.ok okData }

/-- As `okWorld` but the HTTP post raises (network failure). -/
def failWorld : World := { okWorld with postResp := Except.error "connection refused" }

/-- As `okWorld` but base64-decoding the returned image raises. -/
def badDecodeWorld : World :=
  { okWorld with b64decode := fun _ => Except.error "invalid base64" }

/-- A scene holding just the `/mat` network, for the material fallback. -/
def matScene0 : Scene := [("/mat", Node.fresh "matnet")]

/-- A fully-featured Houdini installation. -/
def c9Host : Host :=
  { houAvailable := true
    pyMajor := 3
    pyMinor := 9
    appVersion := some 20
    sopTypeAvailable := fun _ => true
    ropTypeAvailable := fun _ => true
    topTypeAvailable := fun _ => false
    matTypeAvailable := fun _ => true
    shaderHasParm := fun _ => true
    sdTopHasApiUrl := false
    sdTopHasPrompt := false
    matSopHasPath1 := true }

/-- A starting scene holding the `/obj` and `/out` root networks. -/
def c9Scene : Scene := [("/obj", Node.fresh "objnet"), ("/out", Node.fresh "ropnet")]

/-! ## Supporting lemmas about the scene model -/

lemma inputAt_eq_none_of_le (l : List (Option String)) (i : Nat) (h : l.length ≤ i) :
    inputAt l i = none := by
  induction l generalizing i with
  | nil => simp [inputAt]
  | cons hd tl ih =>
    cases i with
    | zero => simp at h
    | succ k =>
      simp only [List.length_cons, Nat.succ_le_succ_iff] at h
      simpa [inputAt] using ih k h

lemma findNode_append_of_none (sc : Scene) (p : String) (n : Node)
    (h : sc.findNode p = none) : (sc ++ [(p, n)]).findNode p = some n := by
  induction sc with
  | nil => simp [Scene.findNode]
  | cons hd tl ih =>
    obtain ⟨q, m⟩ := hd
    by_cases hq : q = p
    · simp [Scene.findNode, hq] at h
    · simp only [Scene.findNode, List.cons_append, if_neg hq] at h ⊢
      exact ih h

lemma setNode_append_of_none (sc : Scene) (p : String) (n m : Node)
    (h : sc.findNode p = none) : (sc ++ [(p, n)]).setNode p m = sc ++ [(p, m)] := by
  induction sc with
  | nil => simp [Scene.setNode]
  | cons hd tl ih =>
    obtain ⟨q, mm⟩ := hd
    by_cases hq : q = p
    · simp [Scene.findNode, hq] at h
    · simp only [Scene.findNode, if_neg hq] at h
      simp only [List.cons_append, Scene.setNode, if_neg hq]
      exact congrArg (fun z => (q, mm) :: z) (ih h)

lemma findNode_setNode_self (sc : Scene) (p : String) (n m : Node)
    (h : sc.findNode p = some n) : (sc.setNode p m).findNode p = some m := by
  induction sc with
  | nil => simp [Scene.findNode] at h
  | cons hd tl ih =>
    obtain ⟨q, mm⟩ := hd
    by_cases hq : q = p
    · simp [Scene.setNode, Scene.findNode, hq]
    · simp only [Scene.findNode, if_neg hq] at h
      simp only [Scene.setNode, if_neg hq, Scene.findNode]
      exact ih h

lemma freshName_of_free (sc : Scene) (parent base : String)
    (h : sc.findNode (childPath parent base) = none) :
    sc.freshName parent base = base := by
  show freshNameAux sc parent base (sc.length + 1) 0 = base
  simp [freshNameAux, h]

lemma createNode_of_free (sc : Scene) (parent ty base : String)
    (h : sc.findNode (childPath parent base) = none) :
    sc.createNode parent ty base = (sc ++ [(childPath parent base, Node.fresh ty)], base) := by
  unfold Scene.createNode
  rw [freshName_of_free sc parent base h]

lemma inputAt_setInputList_self :
    ∀ (l : List (Option String)) (i : Nat) (v : Option String),
      inputAt (setInputList l i v) i = v
  | [], 0, _ => rfl
  | [], n + 1, v => by
      simpa [setInputList, inputAt] using inputAt_setInputList_self [] n v
  | _ :: _, 0, _ => rfl
  | _ :: t, n + 1, v => by
      simpa [setInputList, inputAt] using inputAt_setInputList_self t n v

lemma inputAt_setInputList_ne :
    ∀ (l : List (Option String)) (i j : Nat) (v : Option String), j ≠ i →
      inputAt (setInputList l i v) j = inputAt l j
  | [], 0, j, v, hj => by
      cases j with
      | zero => exact absurd rfl hj
      | succ k => simp [setInputList, inputAt]
  | [], n + 1, j, v, hj => by
      cases j with
      | zero => simp [setInputList, inputAt]
      | succ k =>
        simpa [setInputList, inputAt] using
          inputAt_setInputList_ne [] n k v (by omega)
  | _ :: t, 0, j, v, hj => by
      cases j with
      | zero => exact absurd rfl hj
      | succ k => simp [setInputList, inputAt]
  | h :: t, n + 1, j, v, hj => by
      cases j with
      | zero => simp [setInputList, inputAt]
      | succ k =>
        simpa [setInputList, inputAt] using
          inputAt_setInputList_ne t n k v (by omega)

lemma findFreeFrom_spec (l : List (Option String)) :
    ∀ fuel i, l.length ≤ fuel + i →
      inputAt l (findFreeFrom l fuel i) = none ∧ i ≤ findFreeFrom l fuel i ∧
        ∀ j, i ≤ j → j < findFreeFrom l fuel i → (inputAt l j).isSome = true := by
  intro fuel
  induction fuel with
  | zero =>
    intro i hle
    refine ⟨inputAt_eq_none_of_le l i (by omega), Nat.le_refl i, ?_⟩
    intro j hj1 hj2
    simp only [findFreeFrom] at hj2
    omega
  | succ fuel ih =>
    intro i hle
    by_cases h : (inputAt l i).isSome
    · have hrec := ih (i + 1) (by omega)
      simp only [findFreeFrom, if_pos h]
      refine ⟨hrec.1, by omega, ?_⟩
      intro j hj1 hj2
      rcases Nat.eq_or_lt_of_le hj1 with heq | hlt2
      · rw [← heq]; exact h
      · exact hrec.2.2 j hlt2 hj2
    · simp only [findFreeFrom, if_neg h]
      refine ⟨by simpa using h, Nat.le_refl i, ?_⟩
      intro j hj1 hj2
      omega

lemma findFreeIdx_spec (l : List (Option String)) (i : Nat) :
    inputAt l (findFreeIdx l i) = none ∧ i ≤ findFreeIdx l i ∧
      ∀ j, i ≤ j → j < findFreeIdx l i → (inputAt l j).isSome = true :=
  findFreeFrom_spec l l.length i (by omega)

lemma connectMerge_of_found (sc : Scene) (parent a b name : String) (n : Node)
    (hfind : sc.findNode (childPath parent name) = some n)
    (hty : n.typeName = "merge") :
    connectMerge sc parent a b name =
      (sc.setNode (childPath parent name)
        { n with inputs := connectMergeInputs n.inputs a b },
       childPath parent name) := by
  simp [connectMerge, hfind, hty]

lemma connectMergeInputs_of_free (l : List (Option String)) (a b : String)
    (h : inputAt l 0 = none) :
    connectMergeInputs l a b = setInputList (setInputList l 0 (some a)) 1 (some b) := by
  simp [connectMergeInputs, h]

lemma connectMergeInputs_zero_of_occupied (l : List (Option String)) (a b : String)
    (h : inputAt l 0 ≠ none) :
    inputAt (connectMergeInputs l a b) 0 = some a := by
  have h1 : (1 : Nat) ≤ findFreeIdx l 1 := (findFreeIdx_spec l 1).2.1
  have hz : inputAt (setInputList l (findFreeIdx l 1) (some b)) 0 = inputAt l 0 :=
    inputAt_setInputList_ne l (findFreeIdx l 1) 0 (some b) (by omega)
  unfold connectMergeInputs
  rw [if_neg h]
  by_cases hre : inputAt (setInputList l (findFreeIdx l 1) (some b)) 0 ≠ some a
  · rw [if_pos hre, inputAt_setInputList_self]
  · rw [if_neg hre]
    push_neg at hre
    exact hre

lemma connectMergeInputs_branch_of_occupied (l : List (Option String)) (a b : String)
    (h : inputAt l 0 ≠ none) :
    inputAt (connectMergeInputs l a b) (findFreeIdx l 1) = some b := by
  have h1 : (1 : Nat) ≤ findFreeIdx l 1 := (findFreeIdx_spec l 1).2.1
  unfold connectMergeInputs
  rw [if_neg h]
  by_cases hre : inputAt (setInputList l (findFreeIdx l 1) (some b)) 0 ≠ some a
  · rw [if_pos hre, inputAt_setInputList_ne _ _ _ _ (by omega),
      inputAt_setInputList_self]
  · rw [if_neg hre, inputAt_setInputList_self]

lemma connectMergeInputs_other_of_occupied (l : List (Option String)) (a b : String)
    (h : inputAt l 0 ≠ none) (j : Nat) (hj0 : j ≠ 0) (hji : j ≠ findFreeIdx l 1) :
    inputAt (connectMergeInputs l a b) j = inputAt l j := by
  unfold connectMergeInputs
  rw [if_neg h]
  by_cases hre : inputAt (setInputList l (findFreeIdx l 1) (some b)) 0 ≠ some a
  · rw [if_pos hre, inputAt_setInputList_ne _ _ _ _ hj0,
      inputAt_setInputList_ne _ _ _ _ hji]
  · rw [if_neg hre, inputAt_setInputList_ne _ _ _ _ hji]

/-! ## Supporting lemmas about the Stable Diffusion round trip -/

lemma exIsErr_ok (x : α) : exIsErr (Except.ok x) = false := rfl

lemma exIsErr_error (m : String) : exIsErr (Except.error m : Except String α) = true := rfl

lemma sdTryPhase_isOk (w : World) (o : String) (e : Effects) :
    exIsErr (sdTryPhase w o e).1 = false := by
  unfold sdTryPhase
  repeat' split
  all_goals rfl

lemma sdTryPhase_posts (w : World) (o : String) (e : Effects) :
    (sdTryPhase w o e).2.posts = e.posts := by
  unfold sdTryPhase
  repeat' split
  all_goals rfl

lemma sdTryPhase_success (w : World) (o : String) (e : Effects)
    (resp : SDResp) (d : SDData) (img : String) (rest : List String) (png : String)
    (hpost : w.postResp = Except.ok resp) (hstat : resp.statusError = none)
    (hjson : resp.jsonResult = Except.ok d) (himgs : d.images = some (img :: rest))
    (hdec : w.b64decode img = Except.ok png)
    (hmk : w.mkdirResult (parentOf o) = Except.ok ())
    (hwr : w.writeResult o png = Except.ok ()) :
    sdTryPhase w o e
      = (Except.ok true, { e with mkdirs := [parentOf o], writes := [(o, png)] }) := by
  simp [sdTryPhase, hpost, hstat, hjson, himgs, hdec, hmk, hwr]

lemma sdTryPhase_postErr (w : World) (o : String) (e : Effects) (m : String)
    (h : w.postResp = Except.error m) :
    sdTryPhase w o e = (Except.ok false, e) := by
  simp [sdTryPhase, h]

lemma sdTryPhase_statusErr (w : World) (o : String) (e : Effects)
    (resp : SDResp) (s : String)
    (hpost : w.postResp = Except.ok resp) (hstat : resp.statusError = some s) :
    sdTryPhase w o e = (Except.ok false, e) := by
  simp [sdTryPhase, hpost, hstat]

lemma sdTryPhase_jsonErr (w : World) (o : String) (e : Effects)
    (resp : SDResp) (m : String)
    (hpost : w.postResp = Except.ok resp) (hstat : resp.statusError = none)
    (hjson : resp.jsonResult = Except.error m) :
    sdTryPhase w o e = (Except.ok false, e) := by
  simp [sdTryPhase, hpost, hstat, hjson]

lemma sdTryPhase_decodeErr (w : World) (o : String) (e : Effects)
    (resp : SDResp) (d : SDData) (img : String) (rest : List String) (m : String)
    (hpost : w.postResp = Except.ok resp) (hstat : resp.statusError = none)
    (hjson : resp.jsonResult = Except.ok d) (himgs : d.images.getD [] = img :: rest)
    (hdec : w.b64decode img = Except.error m) :
    sdTryPhase w o e = (Except.ok false, e) := by
  simp [sdTryPhase, hpost, hstat, hjson, himgs, hdec]

lemma sdTryPhase_mkdirErr (w : World) (o : String) (e : Effects)
    (resp : SDResp) (d : SDData) (img : String) (rest : List String)
    (png m : String)
    (hpost : w.postResp = Except.ok resp) (hstat : resp.statusError = none)
    (hjson : resp.jsonResult = Except.ok d) (himgs : d.images.getD [] = img :: rest)
    (hdec : w.b64decode img = Except.ok png)
    (hmk : w.mkdirResult (parentOf o) = Except.error m) :
    sdTryPhase w o e = (Except.ok false, e) := by
  simp [sdTryPhase, hpost, hstat, hjson, himgs, hdec, hmk]

lemma sdTryPhase_writeErr (w : World) (o : String) (e : Effects)
    (resp : SDResp) (d : SDData) (img : String) (rest : List String)
    (png m : String)
    (hpost : w.postResp = Except.ok resp) (hstat : resp.statusError = none)
    (hjson : resp.jsonResult = Except.ok d) (himgs : d.images.getD [] = img :: rest)
    (hdec : w.b64decode img = Except.ok png)
    (hmk : w.mkdirResult (parentOf o) = Except.ok ())
    (hwr : w.writeResult o png = Except.error m) :
    sdTryPhase w o e = (Except.ok false, { e with mkdirs := [parentOf o] }) := by
  simp [sdTryPhase, hpost, hstat, hjson, himgs, hdec, hmk, hwr]

lemma sdTryPhase_empty (w : World) (o : String) (e : Effects)
    (resp : SDResp) (d : SDData)
    (hpost : w.postResp = Except.ok resp) (hstat : resp.statusError = none)
    (hjson : resp.jsonResult = Except.ok d) (himgs : d.images.getD [] = []) :
    sdTryPhase w o e = (Except.ok false, e) := by
  simp [sdTryPhase, hpost, hstat, hjson, himgs]

lemma sdTryPhaseTxt_empty (w : World) (o : String) (e : Effects)
    (resp : SDResp) (d : SDData)
    (hpost : w.postResp = Except.ok resp) (hstat : resp.statusError = none)
    (hjson : resp.jsonResult = Except.ok d) (himgs : d.images.getD [] = []) :
    sdTryPhaseTxt w o e = (Except.ok false, e) := by
  simp [sdTryPhaseTxt, hpost, hstat, hjson, himgs]

lemma callSD_raise_char (w : World) (init : Option String) (prompt out : String)
    (api : Option String) :
    exIsErr (callStableDiffusion w init prompt out api).1 = sdRaisesB w init api := by
  unfold callStableDiffusion sdRaisesB
  cases api with
  | none => rfl
  | some u =>
    by_cases hu : u = ""
    · simp [hu, exIsErr_ok]
    · simp only [if_neg hu]
      rcases Bool.eq_false_or_eq_true w.requestsAvailable with hr | hr
      · cases init with
        | none => simp [hr, sdTryPhase_isOk]
        | some p =>
          rcases Bool.eq_false_or_eq_true (w.fileExists p) with hex | hex
          · cases hread : w.readFile p with
            | error e => simp [hr, hex, hread, exIsErr_error]
            | ok bytes => simp [hr, hex, hread, sdTryPhase_isOk, exIsErr_ok]
          · simp [hr, hex, sdTryPhase_isOk]
      · simp [hr, exIsErr_ok]

lemma createOrUpdateMaterial_none (host : Host) (w : World) :
    ((createOrUpdateMaterial host w matScene0 none).1.findNode
        (childPath "/mat" "ship_mat")).map Node.parms = some [] := by
  unfold createOrUpdateMaterial
  rcases Bool.eq_false_or_eq_true (host.matTypeAvailable "principledshader::2.0")
    with hm | hm <;> simp only [hm] <;> rfl

lemma sdNoRaise_cases (w : World) (init : Option String) (u : String)
    (hu : u ≠ "") (hreq : w.requestsAvailable = true)
    (hno : sdRaisesB w init (some u) = false) :
    init = none ∨ (∃ p, init = some p ∧ w.fileExists p = false) ∨
      (∃ p bytes, init = some p ∧ w.fileExists p = true ∧
        w.readFile p = Except.ok bytes) := by
  cases init with
  | none => exact Or.inl rfl
  | some p =>
    simp only [sdRaisesB, if_neg hu, hreq, Bool.true_eq_false, if_false] at hno
    rcases Bool.eq_false_or_eq_true (w.fileExists p) with hex | hex
    · rw [hex, Bool.true_and] at hno
      cases hread : w.readFile p with
      | error e => rw [hread] at hno; simp [exIsErr] at hno
      | ok bytes => exact Or.inr (Or.inr ⟨p, bytes, rfl, hex, hread⟩)
    · exact Or.inr (Or.inl ⟨p, rfl, hex⟩)

lemma callSD_tryPhase_proj (w : World) (init : Option String) (prompt out u : String)
    (hu : u ≠ "") (hreq : w.requestsAvailable = true)
    (hno : sdRaisesB w init (some u) = false) :
    ∃ e : Effects, e.writes = [] ∧
      callStableDiffusion w init prompt out (some u) = sdTryPhase w out e := by
  rcases sdNoRaise_cases w init u hu hreq hno with hcase | ⟨p, hcase, hex⟩ |
    ⟨p, bytes, hcase, hex, hread⟩ <;> subst hcase
  · exact ⟨postedEffects (rstripSlash u ++ "/sdapi/v1/txt2img") (sdPayloadBase prompt),
      rfl, by simp [callStableDiffusion, postedEffects, if_neg hu, hreq]⟩
  · exact ⟨postedEffects (rstripSlash u ++ "/sdapi/v1/txt2img") (sdPayloadBase prompt),
      rfl, by simp [callStableDiffusion, postedEffects, if_neg hu, hreq, hex]⟩
  · exact ⟨postedEffects (rstripSlash u ++ "/sdapi/v1/img2img")
        { sdPayloadBase prompt with
            init_images := some [w.b64encode bytes],
            denoising_strength := some 0.6 },
      rfl, by simp [callStableDiffusion, postedEffects, if_neg hu, hreq, hex, hread]⟩

lemma sdRaisesB_eq_false_of_reads (w : World)
    (hread : ∀ p, w.fileExists p = true → exIsErr (w.readFile p) = false) :
    ∀ i a, sdRaisesB w i a = false := by
  intro i a
  unfold sdRaisesB
  cases a with
  | none => rfl
  | some u =>
    by_cases hu : u = ""
    · simp [hu]
    · simp only [if_neg hu]
      rcases Bool.eq_false_or_eq_true w.requestsAvailable with hr | hr
      · cases i with
        | none => simp [hr]
        | some p =>
          rcases Bool.eq_false_or_eq_true (w.fileExists p) with hex | hex
          · simp [hr, hex, hread p hex]
          · simp [hr, hex]
      · simp [hr]

/-! ## Claims -/

/-- C1: for every prompt string, `_apply_prompt_tweaks` appends a rivet
branch (scatter + circle + copytopoints merged with the base) iff the
lower-cased prompt contains "rivet", and appends a conduit branch
(curve + polywire merged with the base) iff it contains "glow" or
"conduit"; the matches are independent, and a prompt matching both
produces both branches merged with the base (the conduit merge takes the
rivet merge as its base). -/
theorem applyPromptTweaks_keyword_spec (prompt : String) :
    (((applyPromptTweaks tweakScene0 shipGeoP uvsP prompt).1.findNode mergeRivetsP).isSome
        = rivetCond prompt) ∧
    (((applyPromptTweaks tweakScene0 shipGeoP uvsP prompt).1.findNode mergeConduitP).isSome
        = conduitCond prompt) ∧
    applyPromptTweaks tweakScene0 shipGeoP uvsP prompt
      = specTweakResult (rivetCond prompt) (conduitCond prompt) := by
  simp only [applyPromptTweaks, rivetCond, conduitCond]
  rcases Bool.eq_false_or_eq_true (pyIn "rivet" (pyLower prompt)) with hR | hR <;>
    rcases Bool.eq_false_or_eq_true (pyIn "glow" (pyLower prompt)) with hG1 | hG1 <;>
      rcases Bool.eq_false_or_eq_true (pyIn "conduit" (pyLower prompt)) with hG2 | hG2 <;>
        simp only [hR, hG1, hG2] <;>
          exact ⟨rfl, rfl, rfl⟩

/-- C2: for every scene, base `a`, branch `b` and merge name: when the
named node exists and is a merge, `_connect_merge` mutates exactly that
node; if its input 0 was unconnected it wires `a` at 0 and `b` at 1,
otherwise it wires `b` at the first unconnected index from 1 (all lower
indices from 1 being connected), ends with input 0 referencing `a`, and
leaves all other inputs unchanged; when the named node is absent a fresh
merge wired `[a, b]` is created; in every case the merge node (path) is
returned. -/
theorem connectMerge_wiring_spec (sc : Scene) (parent a b name : String) :
    (∀ n, sc.findNode (childPath parent name) = some n → n.typeName = "merge" →
      connectMerge sc parent a b name =
        (sc.setNode (childPath parent name)
          { n with inputs := connectMergeInputs n.inputs a b },
         childPath parent name) ∧
      (inputAt n.inputs 0 = none →
        inputAt (connectMergeInputs n.inputs a b) 0 = some a ∧
        inputAt (connectMergeInputs n.inputs a b) 1 = some b) ∧
      (inputAt n.inputs 0 ≠ none →
        inputAt n.inputs (findFreeIdx n.inputs 1) = none ∧
        (∀ j, 1 ≤ j → j < findFreeIdx n.inputs 1 → (inputAt n.inputs j).isSome = true) ∧
        inputAt (connectMergeInputs n.inputs a b) (findFreeIdx n.inputs 1) = some b ∧
        inputAt (connectMergeInputs n.inputs a b) 0 = some a ∧
        (∀ j, j ≠ 0 → j ≠ findFreeIdx n.inputs 1 →
          inputAt (connectMergeInputs n.inputs a b) j = inputAt n.inputs j))) ∧
    (sc.findNode (childPath parent name) = none →
      connectMerge sc parent a b name =
        (sc ++ [(childPath parent name,
          { typeName := "merge", inputs := [some a, some b], parms := [] })],
         childPath parent name)) := by
  constructor
  · intro n hfind hty
    refine ⟨connectMerge_of_found sc parent a b name n hfind hty, ?_, ?_⟩
    · intro h0
      rw [connectMergeInputs_of_free n.inputs a b h0]
      constructor
      · rw [inputAt_setInputList_ne _ 1 0 _ (by omega), inputAt_setInputList_self]
      · rw [inputAt_setInputList_self]
    · intro h0
      exact ⟨(findFreeIdx_spec n.inputs 1).1,
        fun j hj1 hj2 => (findFreeIdx_spec n.inputs 1).2.2 j hj1 hj2,
        connectMergeInputs_branch_of_occupied n.inputs a b h0,
        connectMergeInputs_zero_of_occupied n.inputs a b h0,
        fun j hj0 hji => connectMergeInputs_other_of_occupied n.inputs a b h0 j hj0 hji⟩
  · intro hnone
    have hc := createNode_of_free sc parent "merge" name hnone
    have hf2 := findNode_append_of_none sc (childPath parent name)
      (Node.fresh "merge") hnone
    have hs2 := setNode_append_of_none sc (childPath parent name)
      (Node.fresh "merge")
      { Node.fresh "merge" with
          inputs := connectMergeInputs (Node.fresh "merge").inputs a b } hnone
    simp only [connectMerge, hnone, hc, hf2, hs2]
    rfl

/-- Witness for C2: on a concrete scene with an input-free merge node
`/g/m`, the theorem applies with all hypotheses discharged: the node is
rewired to `[a, b]` and input 0 holds the base, input 1 the branch. -/
theorem connectMerge_wiring_spec_witness :
    (connectMerge c2Scene "/g" "/g/base" "/g/br" "m" =
      (c2Scene.setNode (childPath "/g" "m")
        { Node.fresh "merge" with
            inputs := connectMergeInputs (Node.fresh "merge").inputs "/g/base" "/g/br" },
       childPath "/g" "m")) ∧
    inputAt (connectMergeInputs (Node.fresh "merge").inputs "/g/base" "/g/br") 0
      = some "/g/base" ∧
    inputAt (connectMergeInputs (Node.fresh "merge").inputs "/g/base" "/g/br") 1
      = some "/g/br" :=
  ⟨((connectMerge_wiring_spec c2Scene "/g" "/g/base" "/g/br" "m").1
      (Node.fresh "merge") rfl rfl).1,
   ((connectMerge_wiring_spec c2Scene "/g" "/g/base" "/g/br" "m").1
      (Node.fresh "merge") rfl rfl).2.1 rfl⟩

/-- Counterexample for C3: on a merge node already wired with the base at
input 0 and the branch at input 1, calling `_connect_merge` again with
the same base/branch pair does NOT leave the wiring unchanged: the branch
is wired a second time, at input 2. -/
theorem connectMerge_not_idempotent_cex :
    ((c3Scene.findNode "/g/m").map Node.inputs = some [some "/g/base", some "/g/br"]) ∧
    (((connectMerge c3Scene "/g" "/g/base" "/g/br" "m").1.findNode "/g/m").map Node.inputs
      = some [some "/g/base", some "/g/br", some "/g/br"]) :=
  ⟨rfl, rfl⟩

/-- C3 (amended): repeating `_connect_merge` with the same base/branch
pair on a merge node whose input 0 already references the base wires the
branch AGAIN at the first unconnected index from 1 (duplicating it),
while input 0 still references the base and all other inputs are
unchanged. -/
theorem connectMerge_repeat_duplicates_branch (sc : Scene) (parent a b name : String)
    (n : Node) (hfind : sc.findNode (childPath parent name) = some n)
    (hty : n.typeName = "merge") (h0 : inputAt n.inputs 0 = some a) :
    connectMerge sc parent a b name =
      (sc.setNode (childPath parent name)
        { n with inputs := connectMergeInputs n.inputs a b },
       childPath parent name) ∧
    inputAt (connectMergeInputs n.inputs a b) (findFreeIdx n.inputs 1) = some b ∧
    inputAt n.inputs (findFreeIdx n.inputs 1) = none ∧
    inputAt (connectMergeInputs n.inputs a b) 0 = some a := by
  have h0ne : inputAt n.inputs 0 ≠ none := by rw [h0]; exact fun hc => by cases hc
  exact ⟨connectMerge_of_found sc parent a b name n hfind hty,
    connectMergeInputs_branch_of_occupied n.inputs a b h0ne,
    (findFreeIdx_spec n.inputs 1).1,
    connectMergeInputs_zero_of_occupied n.inputs a b h0ne⟩

/-- Witness for the amended C3 on the concrete already-wired scene: the
duplicate lands at input 2 and input 0 still references the base. -/
theorem connectMerge_repeat_duplicates_branch_witness :
    connectMerge c3Scene "/g" "/g/base" "/g/br" "m" =
      (c3Scene.setNode (childPath "/g" "m")
        { typeName := "merge",
          inputs := connectMergeInputs [some "/g/base", some "/g/br"] "/g/base" "/g/br",
          parms := [] },
       childPath "/g" "m") ∧
    inputAt (connectMergeInputs [some "/g/base", some "/g/br"] "/g/base" "/g/br")
      (findFreeIdx [some "/g/base", some "/g/br"] 1) = some "/g/br" ∧
    inputAt (connectMergeInputs [some "/g/base", some "/g/br"] "/g/base" "/g/br") 0
      = some "/g/base" :=
  ⟨(connectMerge_repeat_duplicates_branch c3Scene "/g" "/g/base" "/g/br" "m"
      _ rfl rfl rfl).1,
   (connectMerge_repeat_duplicates_branch c3Scene "/g" "/g/base" "/g/br" "m"
      _ rfl rfl rfl).2.1,
   (connectMerge_repeat_duplicates_branch c3Scene "/g" "/g/base" "/g/br" "m"
      _ rfl rfl rfl).2.2.2⟩

/-- C10: `_get_or_create` (and the identical `get_or_create`) is
idempotent: it always returns the requested name; when a child of that
name already exists the scene is unchanged; a second call with the same
arguments returns the same node and changes nothing; in total at most
one node is created. -/
theorem getOrCreate_idempotent (sc : Scene) (parent ty name : String) :
    (getOrCreate sc parent ty name).2 = name ∧
    (∀ n, sc.findNode (childPath parent name) = some n →
        getOrCreate sc parent ty name = (sc, name)) ∧
    getOrCreate (getOrCreate sc parent ty name).1 parent ty name
      = ((getOrCreate sc parent ty name).1, name) ∧
    (getOrCreate sc parent ty name).1.length ≤ sc.length + 1 := by
  rcases hfind : sc.findNode (childPath parent name) with _ | n
  · have h1 : getOrCreate sc parent ty name
        = (sc ++ [(childPath parent name, Node.fresh ty)], name) := by
      simp only [getOrCreate, hfind]
      exact createNode_of_free sc parent ty name hfind
    have hf2 := findNode_append_of_none sc (childPath parent name) (Node.fresh ty) hfind
    have h2 : getOrCreate (sc ++ [(childPath parent name, Node.fresh ty)]) parent ty name
        = (sc ++ [(childPath parent name, Node.fresh ty)], name) := by
      simp only [getOrCreate, hf2]
    refine ⟨by rw [h1], ?_, ?_, ?_⟩
    · intro m hm
      exact Option.noConfusion hm
    · rw [h1]
      exact h2
    · rw [h1]
      simp
  · have h1 : getOrCreate sc parent ty name = (sc, name) := by
      simp only [getOrCreate, hfind]
    exact ⟨by rw [h1], fun m _ => h1, by rw [h1]; exact h1,
      by rw [h1]; exact Nat.le_succ sc.length⟩

/-- Witness for C10: with a parent that already has a child `geo1`, the
call returns that child and leaves the scene unchanged. -/
theorem getOrCreate_idempotent_witness :
    getOrCreate c10Scene "/obj" "geo" "geo1" = (c10Scene, "geo1") :=
  (getOrCreate_idempotent c10Scene "/obj" "geo" "geo1").2.1 (Node.fresh "geo") rfl

/-- Counterexample for C4: when the init image passes its existence
check but reading it raises (the read is outside the try/except),
`_call_stable_diffusion` does NOT return False: the exception propagates
out of the function. -/
theorem callStableDiffusion_initRead_propagates_cex :
    callStableDiffusion permWorld (some "snap.png") "prompt" "tex.png" (some "http://sd")
      = (Except.error "permission denied", emptyEffects) := rfl

set_option maxRecDepth 100000 in
set_option maxHeartbeats 4000000 in
/-- C4 (amended): every error arising inside the try block — the HTTP
post, the status check, the JSON parse, the base64 decode, the directory
creation or the file write — is caught and the function returns False
with no file written; an exception escapes exactly when the API is
configured, `requests` imports, and the init image passes its existence
check but reading it raises (that read sits outside the try/except).
When no texture is produced the caller leaves the shader with its
default untextured parameters — shown generally for the material update
with no texture, and end to end on a concrete run whose post fails. -/
theorem callStableDiffusion_error_boundary_amended :
    (∀ (w : World) (init : Option String) (prompt out : String) (api : Option String),
        exIsErr (callStableDiffusion w init prompt out api).1 = sdRaisesB w init api) ∧
    (∀ (w : World) (init : Option String) (prompt out u : String),
      u ≠ "" → w.requestsAvailable = true → sdRaisesB w init (some u) = false →
      ((∃ m, w.postResp = Except.error m) ∨
       (∃ resp s, w.postResp = Except.ok resp ∧ resp.statusError = some s) ∨
       (∃ resp m, w.postResp = Except.ok resp ∧ resp.statusError = none ∧
          resp.jsonResult = Except.error m) ∨
       (∃ resp d img rest m, w.postResp = Except.ok resp ∧ resp.statusError = none ∧
          resp.jsonResult = Except.ok d ∧ d.images.getD [] = img :: rest ∧
          w.b64decode img = Except.error m) ∨
       (∃ resp d img rest png m, w.postResp = Except.ok resp ∧
          resp.statusError = none ∧ resp.jsonResult = Except.ok d ∧
          d.images.getD [] = img :: rest ∧ w.b64decode img = Except.ok png ∧
          w.mkdirResult (parentOf out) = Except.error m) ∨
       (∃ resp d img rest png m, w.postResp = Except.ok resp ∧
          resp.statusError = none ∧ resp.jsonResult = Except.ok d ∧
          d.images.getD [] = img :: rest ∧ w.b64decode img = Except.ok png ∧
          w.mkdirResult (parentOf out) = Except.ok () ∧
          w.writeResult out png = Except.error m)) →
      (callStableDiffusion w init prompt out (some u)).1 = Except.ok false ∧
      (callStableDiffusion w init prompt out (some u)).2.writes = []) ∧
    (∀ (host : Host) (w : World),
        ((createOrUpdateMaterial host w matScene0 none).1.findNode
            (childPath "/mat" "ship_mat")).map Node.parms = some []) ∧
    ((setupInterstellarAI c9Host failWorld c9Scene "p" none (some "http://sd")
        none false).toOption.map
      (fun r => (r.sdOk,
        (r.scene.findNode (childPath "/mat" "ship_mat")).map Node.parms,
        r.effects.writes))
      = some (false, some [], [])) := by
  refine ⟨fun w init prompt out api => callSD_raise_char w init prompt out api,
    ?_, fun host w => createOrUpdateMaterial_none host w, ?_⟩
  · intro w init prompt out u hu hreq hno hfail
    obtain ⟨e, hew, hce⟩ := callSD_tryPhase_proj w init prompt out u hu hreq hno
    rw [hce]
    rcases hfail with ⟨m, h1⟩ | ⟨resp, s, h1, h2⟩ | ⟨resp, m, h1, h2, h3⟩ |
      ⟨resp, d, img, rest, m, h1, h2, h3, h4, h5⟩ |
      ⟨resp, d, img, rest, png, m, h1, h2, h3, h4, h5, h6⟩ |
      ⟨resp, d, img, rest, png, m, h1, h2, h3, h4, h5, h6, h7⟩
    · rw [sdTryPhase_postErr w out e m h1]
      exact ⟨rfl, hew⟩
    · rw [sdTryPhase_statusErr w out e resp s h1 h2]
      exact ⟨rfl, hew⟩
    · rw [sdTryPhase_jsonErr w out e resp m h1 h2 h3]
      exact ⟨rfl, hew⟩
    · rw [sdTryPhase_decodeErr w out e resp d img rest m h1 h2 h3 h4 h5]
      exact ⟨rfl, hew⟩
    · rw [sdTryPhase_mkdirErr w out e resp d img rest png m h1 h2 h3 h4 h5 h6]
      exact ⟨rfl, hew⟩
    · rw [sdTryPhase_writeErr w out e resp d img rest png m h1 h2 h3 h4 h5 h6 h7]
      exact ⟨rfl, hew⟩
  · rfl

/-- Witness for the amended C4: a failing post and a failing base64
decode each produce a caught False with nothing written. -/
theorem callStableDiffusion_error_boundary_amended_witness :
    ((callStableDiffusion failWorld none "p" "/out/t.png" (some "http://sd")).1
        = Except.ok false ∧
     (callStableDiffusion failWorld none "p" "/out/t.png" (some "http://sd")).2.writes
        = []) ∧
    ((callStableDiffusion badDecodeWorld none "p" "/out/t.png" (some "http://sd")).1
        = Except.ok false ∧
     (callStableDiffusion badDecodeWorld none "p" "/out/t.png" (some "http://sd")).2.writes
        = []) :=
  ⟨callStableDiffusion_error_boundary_amended.2.1 failWorld none "p" "/out/t.png"
      "http://sd" (by decide) rfl rfl (Or.inl ⟨"connection refused", rfl⟩),
   callStableDiffusion_error_boundary_amended.2.1 badDecodeWorld none "p" "/out/t.png"
      "http://sd" (by decide) rfl rfl
      (Or.inr (Or.inr (Or.inr (Or.inl
        ⟨okResp, okData, "IMG1", ["IMG2"], "invalid base64", rfl, rfl, rfl, rfl, rfl⟩))))⟩

/-- C5: with no API URL configured (None or the empty string),
`_call_stable_diffusion` returns False, performs no HTTP request and
writes no file. -/
theorem callStableDiffusion_no_api_skips (w : World) (init : Option String)
    (prompt out : String) (api : Option String)
    (h : api = none ∨ api = some "") :
    callStableDiffusion w init prompt out api = (Except.ok false, emptyEffects) := by
  rcases h with h | h <;> subst h <;> rfl

/-- Witness for C5 at a concrete world and `api_url = None`. -/
theorem callStableDiffusion_no_api_skips_witness :
    callStableDiffusion permWorld (some "snap.png") "p" "t.png" none
      = (Except.ok false, emptyEffects) :=
  callStableDiffusion_no_api_skips permWorld (some "snap.png") "p" "t.png" none (Or.inl rfl)

/-- C6: for every well-formed response whose image list is non-empty,
`_call_stable_diffusion` base64-decodes exactly the first returned image,
creates the output parent directory, writes exactly that one file at the
output path, and returns True. -/
theorem callStableDiffusion_success_writes_first_image
    (w : World) (init : Option String) (prompt out u : String)
    (resp : SDResp) (d : SDData) (img : String) (rest : List String) (png : String)
    (hu : u ≠ "") (hreq : w.requestsAvailable = true)
    (hno : sdRaisesB w init (some u) = false)
    (hpost : w.postResp = Except.ok resp) (hstat : resp.statusError = none)
    (hjson : resp.jsonResult = Except.ok d) (himgs : d.images = some (img :: rest))
    (hdec : w.b64decode img = Except.ok png)
    (hmk : w.mkdirResult (parentOf out) = Except.ok ())
    (hwr : w.writeResult out png = Except.ok ()) :
    (callStableDiffusion w init prompt out (some u)).1 = Except.ok true ∧
    (callStableDiffusion w init prompt out (some u)).2.writes = [(out, png)] ∧
    (callStableDiffusion w init prompt out (some u)).2.mkdirs = [parentOf out] := by
  have hsucc : ∀ e : Effects, sdTryPhase w out e
      = (Except.ok true, { e with mkdirs := [parentOf out], writes := [(out, png)] }) :=
    fun e => sdTryPhase_success w out e resp d img rest png hpost hstat hjson himgs
      hdec hmk hwr
  rcases sdNoRaise_cases w init u hu hreq hno with hcase | ⟨p, hcase, hex⟩ |
    ⟨p, bytes, hcase, hex, hread⟩ <;> subst hcase
  · simp [callStableDiffusion, if_neg hu, hreq, hsucc]
  · simp [callStableDiffusion, if_neg hu, hreq, hex, hsucc]
  · simp [callStableDiffusion, if_neg hu, hreq, hex, hread, hsucc]

/-- Witness for C6: a concrete world with a two-image response writes
the decoded first image at the output path and reports success. -/
theorem callStableDiffusion_success_writes_first_image_witness :
    (callStableDiffusion okWorld none "p" "/out/t.png" (some "http://sd")).1
        = Except.ok true ∧
    (callStableDiffusion okWorld none "p" "/out/t.png" (some "http://sd")).2.writes
        = [("/out/t.png", "PNG")] ∧
    (callStableDiffusion okWorld none "p" "/out/t.png" (some "http://sd")).2.mkdirs
        = ["/out"] :=
  callStableDiffusion_success_writes_first_image okWorld none "p" "/out/t.png" "http://sd"
    { statusError := none, jsonResult := Except.ok { images := some ["IMG1", "IMG2"] } }
    { images := some ["IMG1", "IMG2"] } "IMG1" ["IMG2"] "PNG"
    (by decide) rfl rfl rfl rfl rfl rfl rfl rfl rfl

/-- C7: for every well-formed response whose image list is empty or
missing, `_call_stable_diffusion` returns False and writes nothing, and
its entire observable result equals that of a network failure; the
standalone `call_sd_txt2img` behaves the same. -/
theorem callStableDiffusion_empty_images_like_network_failure
    (w : World) (init : Option String) (prompt out u msg : String)
    (resp : SDResp) (d : SDData)
    (hu : u ≠ "") (hreq : w.requestsAvailable = true)
    (hno : sdRaisesB w init (some u) = false)
    (hpost : w.postResp = Except.ok resp) (hstat : resp.statusError = none)
    (hjson : resp.jsonResult = Except.ok d)
    (himgs : d.images = none ∨ d.images = some []) :
    (callStableDiffusion w init prompt out (some u)).1 = Except.ok false ∧
    (callStableDiffusion w init prompt out (some u)).2.writes = [] ∧
    (callStableDiffusion w init prompt out (some u)).2.mkdirs = [] ∧
    callStableDiffusion w init prompt out (some u)
      = callStableDiffusion { w with postResp := Except.error msg } init prompt out
          (some u) ∧
    (callSdTxt2img w prompt out u).1 = Except.ok false ∧
    (callSdTxt2img w prompt out u).2.writes = [] := by
  have hgetd : d.images.getD [] = [] := by rcases himgs with h | h <;> simp [h]
  have hempty : ∀ e : Effects, sdTryPhase w out e = (Except.ok false, e) :=
    fun e => sdTryPhase_empty w out e resp d hpost hstat hjson hgetd
  have htxt : sdTryPhaseTxt w out
      { posts := [(rstripSlash u ++ "/sdapi/v1/txt2img", sdPayloadBase prompt)],
        mkdirs := [], writes := [] }
      = (Except.ok false,
         { posts := [(rstripSlash u ++ "/sdapi/v1/txt2img", sdPayloadBase prompt)],
           mkdirs := [], writes := [] }) :=
    sdTryPhaseTxt_empty w out _ resp d hpost hstat hjson hgetd
  rcases sdNoRaise_cases w init u hu hreq hno with hcase | ⟨p, hcase, hex⟩ |
    ⟨p, bytes, hcase, hex, hread⟩ <;> subst hcase
  · simp [callStableDiffusion, callSdTxt2img, if_neg hu, hreq, hempty,
      sdTryPhase_postErr, htxt]
  · simp [callStableDiffusion, callSdTxt2img, if_neg hu, hreq, hex, hempty,
      sdTryPhase_postErr, htxt]
  · simp [callStableDiffusion, callSdTxt2img, if_neg hu, hreq, hex, hread, hempty,
      sdTryPhase_postErr, htxt]

/-- Witness for C7: a concrete world whose server answers with an empty
image list behaves exactly as a network failure. -/
theorem callStableDiffusion_empty_images_like_network_failure_witness :
    (callStableDiffusion emptyWorld none "p" "/out/t.png" (some "http://sd")).1
        = Except.ok false ∧
    (callStableDiffusion emptyWorld none "p" "/out/t.png" (some "http://sd")).2.writes
        = [] ∧
    (callStableDiffusion emptyWorld none "p" "/out/t.png" (some "http://sd")).2.mkdirs
        = [] ∧
    callStableDiffusion emptyWorld none "p" "/out/t.png" (some "http://sd")
      = callStableDiffusion { emptyWorld with postResp := Except.error "timeout" } none
          "p" "/out/t.png" (some "http://sd") ∧
    (callSdTxt2img emptyWorld "p" "/out/t.png" "http://sd").1 = Except.ok false ∧
    (callSdTxt2img emptyWorld "p" "/out/t.png" "http://sd").2.writes = [] :=
  callStableDiffusion_empty_images_like_network_failure emptyWorld none "p" "/out/t.png"
    "http://sd" "timeout"
    { statusError := none, jsonResult := Except.ok { images := some [] } }
    { images := some [] } (by decide) rfl rfl rfl rfl rfl (Or.inr rfl)

/-- C8: with a configured API URL, every request body carries the fixed
sampling parameters (steps 20, cfg_scale 7.0, sampler "Euler a",
1024 x 1024); the request goes to the img2img endpoint with
denoising_strength 0.6 and the snapshot base64-attached as the single
init image exactly when an init image is given and exists on disk, and
otherwise to the txt2img endpoint without those fields. -/
theorem callStableDiffusion_payload_endpoint_spec
    (w : World) (init : Option String) (prompt out u : String)
    (hu : u ≠ "") (hreq : w.requestsAvailable = true) :
    (∀ p bytes, init = some p → w.fileExists p = true →
      w.readFile p = Except.ok bytes →
      (callStableDiffusion w init prompt out (some u)).2.posts
        = [(rstripSlash u ++ "/sdapi/v1/img2img",
            { sdPayloadBase prompt with
                init_images := some [w.b64encode bytes],
                denoising_strength := some 0.6 })]) ∧
    (init = none ∨ (∃ p, init = some p ∧ w.fileExists p = false) →
      (callStableDiffusion w init prompt out (some u)).2.posts
        = [(rstripSlash u ++ "/sdapi/v1/txt2img", sdPayloadBase prompt)]) ∧
    (∀ e, e ∈ (callStableDiffusion w init prompt out (some u)).2.posts →
      e.2.steps = 20 ∧ e.2.cfg_scale = 7.0 ∧ e.2.sampler_name = "Euler a" ∧
      e.2.width = 1024 ∧ e.2.height = 1024) := by
  refine ⟨?_, ?_, ?_⟩
  · intro p bytes hinit hex hread
    subst hinit
    simp [callStableDiffusion, if_neg hu, hreq, hex, hread, sdTryPhase_posts]
  · intro hcase
    rcases hcase with hcase | ⟨p, hcase, hex⟩ <;> subst hcase
    · simp [callStableDiffusion, if_neg hu, hreq, sdTryPhase_posts]
    · simp [callStableDiffusion, if_neg hu, hreq, hex, sdTryPhase_posts]
  · intro e he
    cases init with
    | none =>
      simp [callStableDiffusion, if_neg hu, hreq, sdTryPhase_posts] at he
      subst he
      exact ⟨rfl, rfl, rfl, rfl, rfl⟩
    | some p =>
      rcases Bool.eq_false_or_eq_true (w.fileExists p) with hex | hex
      · cases hread : w.readFile p with
        | error em =>
          simp [callStableDiffusion, if_neg hu, hreq, hex, hread, emptyEffects] at he
        | ok bytes =>
          simp [callStableDiffusion, if_neg hu, hreq, hex, hread, sdTryPhase_posts] at he
          subst he
          exact ⟨rfl, rfl, rfl, rfl, rfl⟩
      · simp [callStableDiffusion, if_neg hu, hreq, hex, sdTryPhase_posts] at he
        subst he
        exact ⟨rfl, rfl, rfl, rfl, rfl⟩

/-- Witness for C8: in a world where the snapshot exists and reads as
"BYTES", the request goes to img2img with the encoded snapshot attached
and denoising 0.6; and with no init image it goes to txt2img. -/
theorem callStableDiffusion_payload_endpoint_spec_witness :
    (callStableDiffusion okWorld2 (some "/hip/snap.png") "p" "/out/t.png"
        (some "http://sd")).2.posts
      = [("http://sd/sdapi/v1/img2img",
          { sdPayloadBase "p" with
              init_images := some ["BYTES"], denoising_strength := some 0.6 })] ∧
    (callStableDiffusion okWorld none "p" "/out/t.png" (some "http://sd")).2.posts
      = [("http://sd/sdapi/v1/txt2img", sdPayloadBase "p")] :=
  ⟨(callStableDiffusion_payload_endpoint_spec okWorld2 (some "/hip/snap.png") "p"
      "/out/t.png" "http://sd" (by decide) rfl).1 "/hip/snap.png" "BYTES" rfl rfl rfl,
   (callStableDiffusion_payload_endpoint_spec okWorld none "p"
      "/out/t.png" "http://sd" (by decide) rfl).2.1 (Or.inl rfl)⟩

set_option maxRecDepth 100000 in
set_option maxHeartbeats 4000000 in
/-- Counterexample for C9: a full run in which everything works except
that reading the freshly-rendered snapshot raises (the file exists but
is unreadable): `setup_interstellar_ai` raises instead of continuing
with a reduced result — an external-call failure beyond the hou-import
and `/obj` checks that aborts the run. -/
theorem setupInterstellarAI_raises_on_initRead_cex :
    setupInterstellarAI c9Host permWorld c9Scene
        "futuristic metallic spaceship panel with neon accents"
        (some "add procedural rivets and glowing conduits")
        (some "http://127.0.0.1:7860") none false
      = Except.error "permission denied" := rfl

set_option maxHeartbeats 4000000 in
/-- C9 (amended): `setup_interstellar_ai` completes without raising
whenever the hou module imports, the `/obj` root exists, and no file
that passes an existence check fails to read — i.e. the only abort
conditions are the hou import failure, the missing `/obj` root, and a
filesystem error while reading an existing snapshot for the img2img
request. -/
theorem setupInterstellarAI_abort_conditions_amended
    (host : Host) (w : World) (sc : Scene) (prompt : String)
    (promptTweaks sdApiUrl cockpitStyle : Option String) (buildPdg : Bool)
    (hhou : host.houAvailable = true)
    (hobj : (sc.findNode "/obj").isSome = true)
    (hread : ∀ p, w.fileExists p = true → exIsErr (w.readFile p) = false) :
    exIsErr (setupInterstellarAI host w sc prompt promptTweaks sdApiUrl
      cockpitStyle buildPdg) = false := by
  have hraise := sdRaisesB_eq_false_of_reads w hread
  obtain ⟨o, ho⟩ := Option.isSome_iff_exists.mp hobj
  have hblk : createSpaceshipBlockout host sc promptTweaks
      = Except.ok (blockoutBody host sc promptTweaks) := by
    unfold createSpaceshipBlockout
    rw [ho]
  rcases cockpitStyle with _ | st
  · unfold setupInterstellarAI
    simp only [hhou, Bool.true_eq_false, if_false, hblk]
    split
    next e heq =>
      have h1 := congrArg exIsErr heq
      rw [callSD_raise_char, hraise] at h1
      simp [exIsErr] at h1
    next sdOk heq => rfl
  · by_cases hst : st = ""
    · subst hst
      unfold setupInterstellarAI
      simp only [hhou, Bool.true_eq_false, if_false, hblk]
      split
      next e heq =>
        have h1 := congrArg exIsErr heq
        rw [callSD_raise_char, hraise] at h1
        simp [exIsErr] at h1
      next sdOk heq => rfl
    · unfold setupInterstellarAI
      simp only [hhou, Bool.true_eq_false, if_false, hblk, if_neg hst]
      split
      next e heq =>
        have h1 := congrArg exIsErr heq
        rw [callSD_raise_char, hraise] at h1
        simp [exIsErr] at h1
      next sdOk heq =>
        split
        next e heq2 =>
          split at heq2
          next e2 heq3 =>
            have h1 := congrArg exIsErr heq3
            rw [callSD_raise_char, hraise] at h1
            simp [exIsErr] at h1
          next b heq3 => exact Except.noConfusion heq2
        next b heq2 => rfl

/-- Witness for the amended C9: a complete concrete run (cockpit and PDG
branches on) ends without an exception. -/
theorem setupInterstellarAI_abort_conditions_amended_witness :
    exIsErr (setupInterstellarAI c9Host okWorld c9Scene
      "futuristic metallic spaceship panel with neon accents"
      (some "add procedural rivets and glowing conduits")
      (some "http://127.0.0.1:7860") (some "retro-futuristic cockpit") true) = false :=
  setupInterstellarAI_abort_conditions_amended c9Host okWorld c9Scene
    "futuristic metallic spaceship panel with neon accents"
    (some "add procedural rivets and glowing conduits")
    (some "http://127.0.0.1:7860") (some "retro-futuristic cockpit") true
    rfl rfl (fun _ _ => rfl)

end Interstellar
